import Mathlib

/-!
MCP47X6 DAC driver: command-byte encoding and write protocol

A shallow embedding of `src/MCP47X6.h` and `src/MCP47X6.cpp`.

Modelling conventions.

* The four `enum ... : uint8_t` types become inductive types with exactly the
  named enumerators.
* `union CommandByte` is a byte seen both as `data` and as eight one-bit
  fields.  The bit-field view is the primary representation (the source only
  ever assigns the one-bit fields); `CommandByte.data` is the byte view, with
  the first declared field `G` in the least significant bit, as the
  Arduino compilers allocate bit-fields and as section 3 of the specification
  declares the order.  `CommandByte.ofData` is the converse view.
* `union VoltageLevel` is a 16-bit `data` whose `lower_byte` is the low eight
  bits and whose `upper_byte` is the high eight bits (little-endian targets).
* The global `Wire` object is the external bus transport.  It is threaded
  explicitly as a `TwoWire` value recording every call made on it, together
  with the statuses its next `endTransmission` calls are going to report.
* The constructor leaves `command_byte_` uninitialised before its body runs,
  so `construct` takes the previous content of the object's storage as an
  argument.
-/

/-! ## Enumerations (`MCP47X6.h`, lines 51-74) -/

/-- Voltage reference selection, `enum VREF`. -/
inductive MCP47X6.VREF where
  | VDD_UNBUFFERED
  | VREF_UNBUFFERED
  | VREF_BUFFERED
deriving DecidableEq

/-- Output gain selection, `enum GAIN`. -/
inductive MCP47X6.GAIN where
  | X1
  | X2
deriving DecidableEq

/-- Power-down selection, `enum POWER_DOWN`. -/
inductive MCP47X6.POWER_DOWN where
  | NOT_POWERED_NORMAL_OPERATION
  | POWER_DOWN_1k_RESISTOR
  | POWER_DOWN_100k_RESISTOR
  | POWER_DOWN_500k_RESISTOR
deriving DecidableEq

/-- Memory write command selection, `enum MEMORY_WRITE`. -/
inductive MCP47X6.MEMORY_WRITE where
  | WRITE_VOLATILE_DAC_REGISTER
  | WRITE_VOLATILE_COMMAND
  | WRITE_ALL_MEMORY
  | WRITE_VOLATILE_CONFIGURATION_BITS
deriving DecidableEq

/-! ## The two unions (`MCP47X6.h`, lines 110-134) -/

/-- The `union VoltageLevel`: a 16-bit `data` word. -/
structure MCP47X6.VoltageLevel where
  data : Nat
deriving DecidableEq

/-- The `lower_byte` member of the union: the low eight bits of `data`. -/
def MCP47X6.VoltageLevel.lower_byte (v : MCP47X6.VoltageLevel) : Nat :=
  v.data % 256

/-- The `upper_byte` member of the union: the high eight bits of `data`. -/
def MCP47X6.VoltageLevel.upper_byte (v : MCP47X6.VoltageLevel) : Nat :=
  v.data / 256 % 256

/-- The `union CommandByte`, in its bit-field view: eight one-bit fields in
declaration order. -/
structure MCP47X6.CommandByte where
  G : Bool
  PD0 : Bool
  PD1 : Bool
  VREF0 : Bool
  VREF1 : Bool
  C0 : Bool
  C1 : Bool
  C2 : Bool
deriving DecidableEq

/-- The `data` member of the union: the byte whose bits, least significant
first, are `G, PD0, PD1, VREF0, VREF1, C0, C1, C2`. -/
def MCP47X6.CommandByte.data (c : MCP47X6.CommandByte) : Nat :=
  c.G.toNat + 2 * c.PD0.toNat + 4 * c.PD1.toNat + 8 * c.VREF0.toNat
    + 16 * c.VREF1.toNat + 32 * c.C0.toNat + 64 * c.C1.toNat + 128 * c.C2.toNat

/-- The bit-field view of a byte held in the union's storage. -/
def MCP47X6.CommandByte.ofData (n : Nat) : MCP47X6.CommandByte where
  G := decide (n % 2 = 1)
  PD0 := decide (n / 2 % 2 = 1)
  PD1 := decide (n / 4 % 2 = 1)
  VREF0 := decide (n / 8 % 2 = 1)
  VREF1 := decide (n / 16 % 2 = 1)
  C0 := decide (n / 32 % 2 = 1)
  C1 := decide (n / 64 % 2 = 1)
  C2 := decide (n / 128 % 2 = 1)

/-! ## The driver object (`MCP47X6.h`, lines 103-134) -/

/-- The data members of `class MCP47X6`. -/
structure MCP47X6 where
  address_ : Nat
  vref_ : MCP47X6.VREF
  gain_ : MCP47X6.GAIN
  power_down_ : MCP47X6.POWER_DOWN
  memory_write_ : MCP47X6.MEMORY_WRITE
  voltage_level_ : MCP47X6.VoltageLevel
  command_byte_ : MCP47X6.CommandByte
deriving DecidableEq

/-! ## The bus transport (`Wire`) -/

/-- One call received by the bus transport. -/
inductive BusEvent where
  | beginTransmission (address : Nat)
  | write (data : Nat)
  | endTransmission
deriving DecidableEq

/-- The external transport object `Wire`: the calls it has received so far,
oldest first, and the statuses its coming `endTransmission` calls report
(status 0, no error, once the list is used up). -/
structure TwoWire where
  events : List BusEvent
  pending : List Nat
deriving DecidableEq

/-- The status the next `endTransmission` reports. -/
def TwoWire.nextStatus (w : TwoWire) : Nat :=
  w.pending.headD 0

/-- The call `Wire.beginTransmission(address)`. -/
def TwoWire.beginTransmission (w : TwoWire) (address : Nat) : TwoWire :=
  { w with events := w.events ++ [BusEvent.beginTransmission address] }

/-- The call `Wire.write(data)`. -/
def TwoWire.write (w : TwoWire) (data : Nat) : TwoWire :=
  { w with events := w.events ++ [BusEvent.write data] }

/-- The call `Wire.endTransmission()`: the transport afterwards and the
status it returns. -/
def TwoWire.endTransmission (w : TwoWire) : TwoWire × Nat :=
  ({ events := w.events ++ [BusEvent.endTransmission], pending := w.pending.tail },
    w.nextStatus)

/-- The bytes passed to `Wire.write`, in order, among a list of calls. -/
def BusEvent.writes : List BusEvent → List Nat
  | [] => []
  | BusEvent.write b :: rest => b :: BusEvent.writes rest
  | _ :: rest => BusEvent.writes rest

/-! ## Private helpers (`MCP47X6.cpp`, lines 138-255) -/

/-- The method `saveVref`. -/
def MCP47X6.saveVref (self : MCP47X6) (vref : MCP47X6.VREF) : MCP47X6 :=
  match vref with
  | .VDD_UNBUFFERED =>
    let self := { self with command_byte_ := { self.command_byte_ with VREF1 := false } }
    { self with command_byte_ := { self.command_byte_ with VREF0 := false } }
  | .VREF_UNBUFFERED =>
    let self := { self with command_byte_ := { self.command_byte_ with VREF1 := true } }
    { self with command_byte_ := { self.command_byte_ with VREF0 := false } }
  | .VREF_BUFFERED =>
    let self := { self with command_byte_ := { self.command_byte_ with VREF1 := true } }
    { self with command_byte_ := { self.command_byte_ with VREF0 := true } }

/-- The method `saveGain`. -/
def MCP47X6.saveGain (self : MCP47X6) (gain : MCP47X6.GAIN) : MCP47X6 :=
  match gain with
  | .X1 => { self with command_byte_ := { self.command_byte_ with G := false } }
  | .X2 => { self with command_byte_ := { self.command_byte_ with G := true } }

/-- The method `saveMemory`. -/
def MCP47X6.saveMemory (self : MCP47X6) (memory : MCP47X6.MEMORY_WRITE) : MCP47X6 :=
  match memory with
  | .WRITE_VOLATILE_DAC_REGISTER =>
    let self := { self with command_byte_ := { self.command_byte_ with C2 := false } }
    let self := { self with command_byte_ := { self.command_byte_ with C1 := false } }
    { self with command_byte_ := { self.command_byte_ with C0 := false } }
  | .WRITE_VOLATILE_COMMAND =>
    let self := { self with command_byte_ := { self.command_byte_ with C2 := false } }
    let self := { self with command_byte_ := { self.command_byte_ with C1 := true } }
    { self with command_byte_ := { self.command_byte_ with C0 := false } }
  | .WRITE_ALL_MEMORY =>
    let self := { self with command_byte_ := { self.command_byte_ with C2 := false } }
    let self := { self with command_byte_ := { self.command_byte_ with C1 := true } }
    { self with command_byte_ := { self.command_byte_ with C0 := true } }
  | .WRITE_VOLATILE_CONFIGURATION_BITS =>
    let self := { self with command_byte_ := { self.command_byte_ with C2 := true } }
    let self := { self with command_byte_ := { self.command_byte_ with C1 := false } }
    { self with command_byte_ := { self.command_byte_ with C0 := false } }

/-- The method `savePower`. -/
def MCP47X6.savePower (self : MCP47X6) (power : MCP47X6.POWER_DOWN) : MCP47X6 :=
  match power with
  | .NOT_POWERED_NORMAL_OPERATION =>
    let self := { self with command_byte_ := { self.command_byte_ with PD1 := false } }
    { self with command_byte_ := { self.command_byte_ with PD0 := false } }
  | .POWER_DOWN_1k_RESISTOR =>
    let self := { self with command_byte_ := { self.command_byte_ with PD1 := false } }
    { self with command_byte_ := { self.command_byte_ with PD0 := true } }
  | .POWER_DOWN_100k_RESISTOR =>
    let self := { self with command_byte_ := { self.command_byte_ with PD1 := true } }
    { self with command_byte_ := { self.command_byte_ with PD0 := false } }
  | .POWER_DOWN_500k_RESISTOR =>
    let self := { self with command_byte_ := { self.command_byte_ with PD1 := true } }
    { self with command_byte_ := { self.command_byte_ with PD0 := true } }

/-! ## Constructor and public methods (`MCP47X6.cpp`, lines 37-136) -/

/-- The constructor.  `storage` is the content of the object's storage before
construction: the member initialisers overwrite five members, the body calls
`saveGain`, `saveVref`, `savePower` and assigns `voltage_level_.data`.  The
`uint8_t` and `uint16_t` parameters hold their argument modulo 2^8 and 2^16. -/
def MCP47X6.construct (storage : MCP47X6) (address : Nat) (vref : MCP47X6.VREF)
    (gain : MCP47X6.GAIN) (power_down : MCP47X6.POWER_DOWN)
    (memory_write : MCP47X6.MEMORY_WRITE) (level : Nat) : MCP47X6 :=
  let self : MCP47X6 :=
    { storage with
      address_ := address % 256
      vref_ := vref
      gain_ := gain
      power_down_ := power_down
      memory_write_ := memory_write }
  let self := self.saveGain self.gain_
  let self := self.saveVref self.vref_
  let self := self.savePower self.power_down_
  { self with voltage_level_ := { self.voltage_level_ with data := level % 65536 } }

/-- What a method that uses the transport leaves behind: the object, the
transport and the returned value. -/
structure MCP47X6.Result (α : Type) where
  self : MCP47X6
  Wire : TwoWire
  ret : α

/-- The method `writeCommand`. -/
def MCP47X6.writeCommand (self : MCP47X6) (Wire : TwoWire)
    (memory : MCP47X6.MEMORY_WRITE) : MCP47X6.Result Bool :=
  let self := self.saveMemory memory
  let Wire := Wire.beginTransmission self.address_
  let Wire := Wire.write self.command_byte_.data
  let Wire := Wire.write self.voltage_level_.upper_byte
  let Wire := Wire.write self.voltage_level_.lower_byte
  let ended := Wire.endTransmission
  { self := self, Wire := ended.1, ret := ended.2 == 0 }

/-- The method `init`. -/
def MCP47X6.init (self : MCP47X6) (Wire : TwoWire) : MCP47X6.Result Bool :=
  self.writeCommand Wire self.memory_write_

/-- The method `setGain`. -/
def MCP47X6.setGain (self : MCP47X6) (gain : MCP47X6.GAIN) : MCP47X6 :=
  let self := { self with gain_ := gain }
  self.saveGain self.gain_

/-- The method `setVReference`. -/
def MCP47X6.setVReference (self : MCP47X6) (vref : MCP47X6.VREF) : MCP47X6 :=
  let self := { self with vref_ := vref }
  self.saveVref self.vref_

/-- The method `setPower`. -/
def MCP47X6.setPower (self : MCP47X6) (power_down : MCP47X6.POWER_DOWN) : MCP47X6 :=
  let self := { self with power_down_ := power_down }
  self.savePower self.power_down_

/-- The overload `setOutputLevelVolatileFast(uint16_t level)`, as defined in
`MCP47X6.cpp`: its body is one `return` statement (the transmission is
commented out), no member is assigned, the value returned is a `uint8_t`. -/
def MCP47X6.setOutputLevelVolatileFast16 (self : MCP47X6) (_level : Nat) : Nat :=
  self.voltage_level_.lower_byte

/-- The overload `setOutputLevelVolatileFast(uint8_t level)`: one `return`
statement, no member is assigned. -/
def MCP47X6.setOutputLevelVolatileFast8 (self : MCP47X6) (_level : Nat) : Nat :=
  self.command_byte_.data

/-- The method `downloadParameters`. -/
def MCP47X6.downloadParameters (self : MCP47X6) (Wire : TwoWire)
    (memory : MCP47X6.MEMORY_WRITE) : MCP47X6.Result Bool :=
  let self := { self with memory_write_ := memory }
  self.writeCommand Wire self.memory_write_

/-- The constructor call as a step of a program that also holds the transport:
the constructor body makes no call on `Wire`, which is handed on as it is. -/
def MCP47X6.new (storage : MCP47X6) (Wire : TwoWire) (address : Nat) (vref : MCP47X6.VREF)
    (gain : MCP47X6.GAIN) (power_down : MCP47X6.POWER_DOWN)
    (memory_write : MCP47X6.MEMORY_WRITE) (level : Nat) : MCP47X6.Result Unit :=
  { self := MCP47X6.construct storage address vref gain power_down memory_write level
    Wire := Wire
    ret := () }

/-- A call of one public method, with its argument. -/
inductive MCP47X6.Call where
  | init
  | setGain (gain : MCP47X6.GAIN)
  | setVReference (vref : MCP47X6.VREF)
  | setPower (power_down : MCP47X6.POWER_DOWN)
  | setOutputLevelVolatileFast16 (level : Nat)
  | setOutputLevelVolatileFast8 (level : Nat)
  | downloadParameters (memory : MCP47X6.MEMORY_WRITE)
deriving DecidableEq

/-- The value a public method returns: nothing, a `bool` or a `uint8_t`. -/
inductive MCP47X6.Value where
  | void
  | bool (b : Bool)
  | uint8 (n : Nat)
deriving DecidableEq

/-- One public method call on the object and the transport.  The methods that
make no call on `Wire` hand it on as it is; the two
`setOutputLevelVolatileFast` overloads assign no member. -/
def MCP47X6.call (self : MCP47X6) (Wire : TwoWire) : MCP47X6.Call → MCP47X6.Result MCP47X6.Value
  | .init =>
    let r := self.init Wire
    { self := r.self, Wire := r.Wire, ret := .bool r.ret }
  | .setGain gain => { self := self.setGain gain, Wire := Wire, ret := .void }
  | .setVReference vref => { self := self.setVReference vref, Wire := Wire, ret := .void }
  | .setPower power_down => { self := self.setPower power_down, Wire := Wire, ret := .void }
  | .setOutputLevelVolatileFast16 level =>
    { self := self, Wire := Wire, ret := .uint8 (self.setOutputLevelVolatileFast16 level) }
  | .setOutputLevelVolatileFast8 level =>
    { self := self, Wire := Wire, ret := .uint8 (self.setOutputLevelVolatileFast8 level) }
  | .downloadParameters memory =>
    let r := self.downloadParameters Wire memory
    { self := r.self, Wire := r.Wire, ret := .bool r.ret }

/-- The calls a method made on the transport: what the transport received
beyond what it had received in `before`. -/
def MCP47X6.Result.sent {α : Type} (r : MCP47X6.Result α) (before : TwoWire) : List BusEvent :=
  r.Wire.events.drop before.events.length

/-- The level carried by the bytes of one transaction: the bytes after the
command byte, most significant first. -/
def BusEvent.transmittedLevel (bytes : List Nat) : Nat :=
  (bytes.drop 1).foldl (fun acc b => 256 * acc + b) 0

/-! ## The encoding table of the specification (section 4.1) -/

/-- Table column VREF1. -/
def tableVREF1 : MCP47X6.VREF → Nat
  | .VDD_UNBUFFERED => 0
  | .VREF_UNBUFFERED => 1
  | .VREF_BUFFERED => 1

/-- Table column VREF0. -/
def tableVREF0 : MCP47X6.VREF → Nat
  | .VDD_UNBUFFERED => 0
  | .VREF_UNBUFFERED => 0
  | .VREF_BUFFERED => 1

/-- Table column G. -/
def tableG : MCP47X6.GAIN → Nat
  | .X1 => 0
  | .X2 => 1

/-- Table column PD1. -/
def tablePD1 : MCP47X6.POWER_DOWN → Nat
  | .NOT_POWERED_NORMAL_OPERATION => 0
  | .POWER_DOWN_1k_RESISTOR => 0
  | .POWER_DOWN_100k_RESISTOR => 1
  | .POWER_DOWN_500k_RESISTOR => 1

/-- Table column PD0. -/
def tablePD0 : MCP47X6.POWER_DOWN → Nat
  | .NOT_POWERED_NORMAL_OPERATION => 0
  | .POWER_DOWN_1k_RESISTOR => 1
  | .POWER_DOWN_100k_RESISTOR => 0
  | .POWER_DOWN_500k_RESISTOR => 1

/-- Table column C2. -/
def tableC2 : MCP47X6.MEMORY_WRITE → Nat
  | .WRITE_VOLATILE_DAC_REGISTER => 0
  | .WRITE_VOLATILE_COMMAND => 0
  | .WRITE_ALL_MEMORY => 0
  | .WRITE_VOLATILE_CONFIGURATION_BITS => 1

/-- Table column C1. -/
def tableC1 : MCP47X6.MEMORY_WRITE → Nat
  | .WRITE_VOLATILE_DAC_REGISTER => 0
  | .WRITE_VOLATILE_COMMAND => 1
  | .WRITE_ALL_MEMORY => 1
  | .WRITE_VOLATILE_CONFIGURATION_BITS => 0

/-- Table column C0. -/
def tableC0 : MCP47X6.MEMORY_WRITE → Nat
  | .WRITE_VOLATILE_DAC_REGISTER => 0
  | .WRITE_VOLATILE_COMMAND => 0
  | .WRITE_ALL_MEMORY => 1
  | .WRITE_VOLATILE_CONFIGURATION_BITS => 0

/-- The byte the table assigns to four settings, with the bit order of
section 3: `G` least significant, then `PD0, PD1, VREF0, VREF1, C0, C1, C2`. -/
def tableEncoding (vref : MCP47X6.VREF) (gain : MCP47X6.GAIN)
    (power : MCP47X6.POWER_DOWN) (memory : MCP47X6.MEMORY_WRITE) : Nat :=
  tableG gain + 2 * tablePD0 power + 4 * tablePD1 power + 8 * tableVREF0 vref
    + 16 * tableVREF1 vref + 32 * tableC0 memory + 64 * tableC1 memory
    + 128 * tableC2 memory

/-- Consistency of an object: its command byte is the table encoding of the
four settings it stores. -/
def MCP47X6.consistent (self : MCP47X6) : Prop :=
  self.command_byte_.data
    = tableEncoding self.vref_ self.gain_ self.power_down_ self.memory_write_

instance (self : MCP47X6) : Decidable self.consistent :=
  inferInstanceAs (Decidable (_ = _))

/-! ## Concrete values used in the examples -/

/-- Storage whose every byte is zero. -/
def MCP47X6.zeroStorage : MCP47X6 where
  address_ := 0
  vref_ := .VDD_UNBUFFERED
  gain_ := .X1
  power_down_ := .NOT_POWERED_NORMAL_OPERATION
  memory_write_ := .WRITE_VOLATILE_DAC_REGISTER
  voltage_level_ := { data := 0 }
  command_byte_ := MCP47X6.CommandByte.ofData 0

/-- Storage whose command byte holds `0xFF`, all other bytes zero. -/
def MCP47X6.onesStorage : MCP47X6 :=
  { MCP47X6.zeroStorage with command_byte_ := MCP47X6.CommandByte.ofData 0xFF }

/-- A transport that has received nothing and reports no error. -/
def TwoWire.idle : TwoWire where
  events := []
  pending := []

/-- A transport that has received nothing and whose next `endTransmission`
reports status 2 (address not acknowledged). -/
def TwoWire.failing : TwoWire where
  events := []
  pending := [2]

/-! ## Sequences of calls and configurations -/

/-- A finite sequence of public method calls, made one after the other on the
object and the transport. -/
def MCP47X6.run (self : MCP47X6) (Wire : TwoWire) : List MCP47X6.Call → MCP47X6.Result Unit
  | [] => { self := self, Wire := Wire, ret := () }
  | c :: cs => MCP47X6.run (self.call Wire c).self (self.call Wire c).Wire cs

/-- The argument of a call when it is a `setGain` call. -/
def MCP47X6.Call.gainArgument : MCP47X6.Call → Option MCP47X6.GAIN
  | .setGain gain => some gain
  | _ => none

/-- The argument of a call when it is a `setVReference` call. -/
def MCP47X6.Call.vrefArgument : MCP47X6.Call → Option MCP47X6.VREF
  | .setVReference vref => some vref
  | _ => none

/-- The argument of a call when it is a `setPower` call. -/
def MCP47X6.Call.powerArgument : MCP47X6.Call → Option MCP47X6.POWER_DOWN
  | .setPower power_down => some power_down
  | _ => none

/-- The value passed to the last `setGain` call of a sequence, if there is
one. -/
def MCP47X6.Call.lastGain : List MCP47X6.Call → Option MCP47X6.GAIN
  | [] => none
  | c :: cs =>
    match MCP47X6.Call.lastGain cs with
    | some gain => some gain
    | none => c.gainArgument

/-- The value passed to the last `setVReference` call of a sequence, if there
is one. -/
def MCP47X6.Call.lastVref : List MCP47X6.Call → Option MCP47X6.VREF
  | [] => none
  | c :: cs =>
    match MCP47X6.Call.lastVref cs with
    | some vref => some vref
    | none => c.vrefArgument

/-- The value passed to the last `setPower` call of a sequence, if there is
one. -/
def MCP47X6.Call.lastPower : List MCP47X6.Call → Option MCP47X6.POWER_DOWN
  | [] => none
  | c :: cs =>
    match MCP47X6.Call.lastPower cs with
    | some power_down => some power_down
    | none => c.powerArgument

/-- The four settings the command byte encodes. -/
structure MCP47X6.Configuration where
  vref : MCP47X6.VREF
  gain : MCP47X6.GAIN
  power : MCP47X6.POWER_DOWN
  memory : MCP47X6.MEMORY_WRITE
deriving DecidableEq

/-- The command byte the driver produces for a configuration: the byte held
(and written first) once the constructor and `init()` have run, over the given
storage. -/
def MCP47X6.encode (storage : MCP47X6) (c : MCP47X6.Configuration) : Nat :=
  ((MCP47X6.construct storage 0 c.vref c.gain c.power c.memory 0).init
    TwoWire.idle).self.command_byte_.data

/-- The reference mode two bits VREF1, VREF0 stand for in the section 4.1
table. -/
def MCP47X6.decodeVref : Bool → Bool → Option MCP47X6.VREF
  | false, false => some .VDD_UNBUFFERED
  | true, false => some .VREF_UNBUFFERED
  | true, true => some .VREF_BUFFERED
  | false, true => none

/-- The gain the bit G stands for in the section 4.1 table. -/
def MCP47X6.decodeGain : Bool → MCP47X6.GAIN
  | false => .X1
  | true => .X2

/-- The power mode two bits PD1, PD0 stand for in the section 4.1 table. -/
def MCP47X6.decodePower : Bool → Bool → MCP47X6.POWER_DOWN
  | false, false => .NOT_POWERED_NORMAL_OPERATION
  | false, true => .POWER_DOWN_1k_RESISTOR
  | true, false => .POWER_DOWN_100k_RESISTOR
  | true, true => .POWER_DOWN_500k_RESISTOR

/-- The memory target three bits C2, C1, C0 stand for in the section 4.1
table. -/
def MCP47X6.decodeMemory : Bool → Bool → Bool → Option MCP47X6.MEMORY_WRITE
  | false, false, false => some .WRITE_VOLATILE_DAC_REGISTER
  | false, true, false => some .WRITE_VOLATILE_COMMAND
  | false, true, true => some .WRITE_ALL_MEMORY
  | true, false, false => some .WRITE_VOLATILE_CONFIGURATION_BITS
  | _, _, _ => none

/-- A decoder for command bytes (the `decode(byte) -> fields` of section 9 of
the specification): the section 4.1 table read from the bits back to the
settings; bytes the table does not produce decode to nothing. -/
def MCP47X6.decode (n : Nat) : Option MCP47X6.Configuration :=
  let b := MCP47X6.CommandByte.ofData n
  match MCP47X6.decodeVref b.VREF1 b.VREF0, MCP47X6.decodeMemory b.C2 b.C1 b.C0 with
  | some vref, some memory =>
    some { vref := vref, gain := MCP47X6.decodeGain b.G,
           power := MCP47X6.decodePower b.PD1 b.PD0, memory := memory }
  | _, _ => none

/-- Every configuration: 3 reference modes, 2 gains, 4 power modes, 4 memory
targets. -/
def MCP47X6.allConfigurations : List MCP47X6.Configuration :=
  [MCP47X6.VREF.VDD_UNBUFFERED, .VREF_UNBUFFERED, .VREF_BUFFERED].flatMap fun vref =>
  [MCP47X6.GAIN.X1, .X2].flatMap fun gain =>
  [MCP47X6.POWER_DOWN.NOT_POWERED_NORMAL_OPERATION, .POWER_DOWN_1k_RESISTOR,
    .POWER_DOWN_100k_RESISTOR, .POWER_DOWN_500k_RESISTOR].flatMap fun power =>
  [MCP47X6.MEMORY_WRITE.WRITE_VOLATILE_DAC_REGISTER, .WRITE_VOLATILE_COMMAND,
    .WRITE_ALL_MEMORY, .WRITE_VOLATILE_CONFIGURATION_BITS].map fun memory =>
  { vref := vref, gain := gain, power := power, memory := memory }

/-! ## Basic facts -/

theorem MCP47X6.CommandByte.data_lt (c : MCP47X6.CommandByte) : c.data < 256 := by
  rcases c with ⟨b0, b1, b2, b3, b4, b5, b6, b7⟩
  cases b0 <;> cases b1 <;> cases b2 <;> cases b3 <;> cases b4 <;> cases b5 <;> cases b6 <;>
    cases b7 <;> decide

theorem MCP47X6.CommandByte.ofData_data (c : MCP47X6.CommandByte) :
    MCP47X6.CommandByte.ofData c.data = c := by
  rcases c with ⟨b0, b1, b2, b3, b4, b5, b6, b7⟩
  cases b0 <;> cases b1 <;> cases b2 <;> cases b3 <;> cases b4 <;> cases b5 <;> cases b6 <;>
    cases b7 <;> decide

theorem MCP47X6.CommandByte.toNat_decide_mod_two (m : Nat) :
    (decide (m % 2 = 1)).toNat = m % 2 := by
  rcases Nat.mod_two_eq_zero_or_one m with h | h <;> simp [h]

theorem MCP47X6.CommandByte.data_ofData (n : Nat) :
    (MCP47X6.CommandByte.ofData n).data = n % 256 := by
  simp only [MCP47X6.CommandByte.ofData, MCP47X6.CommandByte.data,
    MCP47X6.CommandByte.toNat_decide_mod_two]
  omega

theorem MCP47X6.writeCommand_sent (self : MCP47X6) (Wire : TwoWire)
    (memory : MCP47X6.MEMORY_WRITE) :
    (self.writeCommand Wire memory).sent Wire
      = [BusEvent.beginTransmission self.address_,
         BusEvent.write (self.saveMemory memory).command_byte_.data,
         BusEvent.write self.voltage_level_.upper_byte,
         BusEvent.write self.voltage_level_.lower_byte,
         BusEvent.endTransmission] := by
  cases memory <;>
    simp [MCP47X6.Result.sent, MCP47X6.writeCommand, MCP47X6.saveMemory,
      TwoWire.beginTransmission, TwoWire.write, TwoWire.endTransmission]

theorem MCP47X6.writeCommand_ret (self : MCP47X6) (Wire : TwoWire)
    (memory : MCP47X6.MEMORY_WRITE) :
    (self.writeCommand Wire memory).ret = (Wire.nextStatus == 0) := by
  simp [MCP47X6.writeCommand, TwoWire.beginTransmission, TwoWire.write,
    TwoWire.endTransmission, TwoWire.nextStatus]

theorem MCP47X6.writeCommand_self (self : MCP47X6) (Wire : TwoWire)
    (memory : MCP47X6.MEMORY_WRITE) :
    (self.writeCommand Wire memory).self = self.saveMemory memory := rfl

theorem MCP47X6.writeCommand_pending (self : MCP47X6) (Wire : TwoWire)
    (memory : MCP47X6.MEMORY_WRITE) :
    (self.writeCommand Wire memory).Wire.pending = Wire.pending.tail := rfl

theorem MCP47X6.saveMemory_construct_data (storage : MCP47X6) (address level : Nat)
    (vref : MCP47X6.VREF) (gain : MCP47X6.GAIN) (power : MCP47X6.POWER_DOWN)
    (memory written : MCP47X6.MEMORY_WRITE) :
    ((MCP47X6.construct storage address vref gain power memory level).saveMemory
        written).command_byte_.data
      = tableEncoding vref gain power written := by
  cases vref <;> cases gain <;> cases power <;> cases written <;> rfl

theorem MCP47X6.construct_memory_write (storage : MCP47X6) (address level : Nat)
    (vref : MCP47X6.VREF) (gain : MCP47X6.GAIN) (power : MCP47X6.POWER_DOWN)
    (memory : MCP47X6.MEMORY_WRITE) :
    (MCP47X6.construct storage address vref gain power memory level).memory_write_
      = memory := by
  cases vref <;> cases gain <;> cases power <;> rfl

theorem MCP47X6.construct_level (storage : MCP47X6) (address level : Nat)
    (vref : MCP47X6.VREF) (gain : MCP47X6.GAIN) (power : MCP47X6.POWER_DOWN)
    (memory : MCP47X6.MEMORY_WRITE) :
    (MCP47X6.construct storage address vref gain power memory level).voltage_level_.data
      = level % 65536 := by
  cases vref <;> cases gain <;> cases power <;> rfl

theorem MCP47X6.construct_address (storage : MCP47X6) (address level : Nat)
    (vref : MCP47X6.VREF) (gain : MCP47X6.GAIN) (power : MCP47X6.POWER_DOWN)
    (memory : MCP47X6.MEMORY_WRITE) :
    (MCP47X6.construct storage address vref gain power memory level).address_
      = address % 256 := by
  cases vref <;> cases gain <;> cases power <;> rfl

/-! ## Encoding and write protocol -/

/-- C1: for every reference mode, gain, power mode and memory target, every
address and level and every previous content of the object's storage, the
first byte `init()` hands to the transport right after the constructor is
`G + 2*PD0 + 4*PD1 + 8*VREF0 + 16*VREF1 + 32*C0 + 64*C1 + 128*C2` with the bit
values of the section 4.1 table. -/
theorem init_after_construct_first_byte_eq_table (storage : MCP47X6) (Wire : TwoWire)
    (address level : Nat) (vref : MCP47X6.VREF) (gain : MCP47X6.GAIN)
    (power : MCP47X6.POWER_DOWN) (memory : MCP47X6.MEMORY_WRITE) :
    (BusEvent.writes
        (((MCP47X6.construct storage address vref gain power memory level).init
          Wire).sent Wire)).head?
      = some (tableG gain + 2 * tablePD0 power + 4 * tablePD1 power + 8 * tableVREF0 vref
          + 16 * tableVREF1 vref + 32 * tableC0 memory + 64 * tableC1 memory
          + 128 * tableC2 memory) := by
  rw [MCP47X6.init, MCP47X6.writeCommand_sent, MCP47X6.construct_memory_write]
  simp only [BusEvent.writes, List.head?_cons, MCP47X6.saveMemory_construct_data]
  rfl

/-- C2: on every object and transport, `init()` and `downloadParameters(m)`
each make exactly the calls beginTransmission(stored address), three writes
(command byte, level upper byte, level lower byte) and one endTransmission,
consuming one status; the call returns true exactly when that status is 0.
After the constructor with 0x60, VDD_UNBUFFERED, X1, normal operation,
WRITE_VOLATILE_DAC_REGISTER and level 2048, `init()` writes 0x00, 0x08, 0x00. -/
theorem full_write_is_one_transaction (self storage : MCP47X6) (Wire : TwoWire)
    (m : MCP47X6.MEMORY_WRITE) :
    ((self.init Wire).sent Wire
        = [BusEvent.beginTransmission self.address_,
           BusEvent.write (self.init Wire).self.command_byte_.data,
           BusEvent.write self.voltage_level_.upper_byte,
           BusEvent.write self.voltage_level_.lower_byte,
           BusEvent.endTransmission]
      ∧ (self.init Wire).Wire.pending = Wire.pending.tail
      ∧ ((self.init Wire).ret = true ↔ Wire.nextStatus = 0))
    ∧ ((self.downloadParameters Wire m).sent Wire
        = [BusEvent.beginTransmission self.address_,
           BusEvent.write (self.downloadParameters Wire m).self.command_byte_.data,
           BusEvent.write self.voltage_level_.upper_byte,
           BusEvent.write self.voltage_level_.lower_byte,
           BusEvent.endTransmission]
      ∧ (self.downloadParameters Wire m).Wire.pending = Wire.pending.tail
      ∧ ((self.downloadParameters Wire m).ret = true ↔ Wire.nextStatus = 0))
    ∧ BusEvent.writes
        (((MCP47X6.construct storage 0x60 .VDD_UNBUFFERED .X1 .NOT_POWERED_NORMAL_OPERATION
            .WRITE_VOLATILE_DAC_REGISTER 2048).init Wire).sent Wire)
        = [0x00, 0x08, 0x00] := by
  refine ⟨⟨?_, rfl, ?_⟩, ⟨?_, rfl, ?_⟩, ?_⟩
  · rw [MCP47X6.init, MCP47X6.writeCommand_sent, MCP47X6.writeCommand_self]
  · rw [MCP47X6.init, MCP47X6.writeCommand_ret]
    simp
  · rw [MCP47X6.downloadParameters, MCP47X6.writeCommand_sent, MCP47X6.writeCommand_self]
  · rw [MCP47X6.downloadParameters, MCP47X6.writeCommand_ret]
    simp
  · rw [MCP47X6.init, MCP47X6.writeCommand_sent, MCP47X6.construct_memory_write,
      MCP47X6.saveMemory_construct_data]
    simp only [BusEvent.writes, MCP47X6.VoltageLevel.upper_byte,
      MCP47X6.VoltageLevel.lower_byte, MCP47X6.construct_level]
    decide

/-- C3 (as stated, refuted): with VREF_BUFFERED, X2, normal operation and
WRITE_ALL_MEMORY, set through the constructor followed by `init()` or through
the setters followed by `downloadParameters(WRITE_ALL_MEMORY)`, the command
byte is 121 and not 27. -/
theorem command_byte_buffered_x2_all_memory_ne_27 :
    ((MCP47X6.construct MCP47X6.zeroStorage 0x60 .VREF_BUFFERED .X2
        .NOT_POWERED_NORMAL_OPERATION .WRITE_ALL_MEMORY 0).init
          TwoWire.idle).self.command_byte_.data = 121
    ∧ ((MCP47X6.construct MCP47X6.zeroStorage 0x60 .VREF_BUFFERED .X2
        .NOT_POWERED_NORMAL_OPERATION .WRITE_ALL_MEMORY 0).init
          TwoWire.idle).self.command_byte_.data ≠ 0b00011011
    ∧ ((((MCP47X6.zeroStorage.setVReference .VREF_BUFFERED).setGain .X2).setPower
        .NOT_POWERED_NORMAL_OPERATION).downloadParameters TwoWire.idle
          .WRITE_ALL_MEMORY).self.command_byte_.data ≠ 0b00011011 := by
  decide

/-- C3 (amended): with VREF_BUFFERED, X2, normal operation and
WRITE_ALL_MEMORY, set through the constructor followed by `init()` or through
the setters followed by `downloadParameters(WRITE_ALL_MEMORY)`, the command
byte held afterwards, which is the first byte written, is 0b01111001
(decimal 121). -/
theorem command_byte_buffered_x2_all_memory_eq_121 (storage self : MCP47X6) (Wire : TwoWire)
    (address level : Nat) :
    (((MCP47X6.construct storage address .VREF_BUFFERED .X2
        .NOT_POWERED_NORMAL_OPERATION .WRITE_ALL_MEMORY level).init
          Wire).self.command_byte_.data = 0b01111001
      ∧ (BusEvent.writes (((MCP47X6.construct storage address .VREF_BUFFERED .X2
        .NOT_POWERED_NORMAL_OPERATION .WRITE_ALL_MEMORY level).init Wire).sent Wire)).head?
          = some 0b01111001)
    ∧ (((((self.setVReference .VREF_BUFFERED).setGain .X2).setPower
        .NOT_POWERED_NORMAL_OPERATION).downloadParameters Wire
          .WRITE_ALL_MEMORY).self.command_byte_.data = 0b01111001
      ∧ (BusEvent.writes (((((self.setVReference .VREF_BUFFERED).setGain .X2).setPower
        .NOT_POWERED_NORMAL_OPERATION).downloadParameters Wire
          .WRITE_ALL_MEMORY).sent Wire)).head? = some 0b01111001) := by
  refine ⟨⟨rfl, ?_⟩, rfl, ?_⟩
  · rw [MCP47X6.init, MCP47X6.writeCommand_sent]
    rfl
  · rw [MCP47X6.downloadParameters, MCP47X6.writeCommand_sent]
    rfl

/-- C4: for every 16-bit level given to the constructor, the level bytes of a
full write (`init()` or `downloadParameters(m)`) are upper = level / 256 and
lower = level mod 256, with 256 * upper + lower = level; for a level of at most
4095 the upper byte is at most 0x0F; for level 4095 the bytes are 0x0F, 0xFF. -/
theorem level_bytes_of_full_write (storage : MCP47X6) (Wire : TwoWire) (address level : Nat)
    (vref : MCP47X6.VREF) (gain : MCP47X6.GAIN) (power : MCP47X6.POWER_DOWN)
    (memory m : MCP47X6.MEMORY_WRITE) (h : level < 65536) :
    (BusEvent.writes
        (((MCP47X6.construct storage address vref gain power memory level).init
          Wire).sent Wire)).drop 1 = [level / 256, level % 256]
    ∧ (BusEvent.writes
        (((MCP47X6.construct storage address vref gain power memory level).downloadParameters
          Wire m).sent Wire)).drop 1 = [level / 256, level % 256]
    ∧ 256 * (MCP47X6.construct storage address vref gain power memory
          level).voltage_level_.upper_byte
        + (MCP47X6.construct storage address vref gain power memory
          level).voltage_level_.lower_byte = level
    ∧ (level ≤ 4095 →
        (MCP47X6.construct storage address vref gain power memory
          level).voltage_level_.upper_byte ≤ 0x0F)
    ∧ (BusEvent.writes
        (((MCP47X6.construct storage address vref gain power memory 4095).init
          Wire).sent Wire)).drop 1 = [0x0F, 0xFF] := by
  have e : level % 65536 = level := Nat.mod_eq_of_lt h
  refine ⟨?_, ?_, ?_, ?_, ?_⟩
  · rw [MCP47X6.init, MCP47X6.writeCommand_sent]
    simp only [BusEvent.writes, List.drop, MCP47X6.VoltageLevel.upper_byte,
      MCP47X6.VoltageLevel.lower_byte, MCP47X6.construct_level, e]
    congr 1
    omega
  · rw [MCP47X6.downloadParameters, MCP47X6.writeCommand_sent]
    simp only [BusEvent.writes, List.drop, MCP47X6.VoltageLevel.upper_byte,
      MCP47X6.VoltageLevel.lower_byte, MCP47X6.construct_level, e]
    congr 1
    omega
  · simp only [MCP47X6.VoltageLevel.upper_byte, MCP47X6.VoltageLevel.lower_byte,
      MCP47X6.construct_level, e]
    omega
  · intro h4
    simp only [MCP47X6.VoltageLevel.upper_byte, MCP47X6.construct_level, e]
    omega
  · rw [MCP47X6.init, MCP47X6.writeCommand_sent]
    simp only [BusEvent.writes, List.drop, MCP47X6.VoltageLevel.upper_byte,
      MCP47X6.VoltageLevel.lower_byte, MCP47X6.construct_level]

/-- C4, at level 4095 on zeroed storage and an idle transport. -/
theorem level_bytes_of_full_write_witness :
    4095 < 65536
    ∧ 4095 ≤ 4095
    ∧ (BusEvent.writes
        (((MCP47X6.construct MCP47X6.zeroStorage 0x60 .VDD_UNBUFFERED .X1
          .NOT_POWERED_NORMAL_OPERATION .WRITE_VOLATILE_DAC_REGISTER 4095).init
            TwoWire.idle).sent TwoWire.idle)).drop 1 = [4095 / 256, 4095 % 256]
    ∧ (MCP47X6.construct MCP47X6.zeroStorage 0x60 .VDD_UNBUFFERED .X1
          .NOT_POWERED_NORMAL_OPERATION .WRITE_VOLATILE_DAC_REGISTER
          4095).voltage_level_.upper_byte ≤ 0x0F :=
  ⟨by decide, by decide,
    (level_bytes_of_full_write MCP47X6.zeroStorage TwoWire.idle 0x60 4095 .VDD_UNBUFFERED .X1
      .NOT_POWERED_NORMAL_OPERATION .WRITE_VOLATILE_DAC_REGISTER .WRITE_ALL_MEMORY
      (by decide)).1,
    (level_bytes_of_full_write MCP47X6.zeroStorage TwoWire.idle 0x60 4095 .VDD_UNBUFFERED .X1
      .NOT_POWERED_NORMAL_OPERATION .WRITE_VOLATILE_DAC_REGISTER .WRITE_ALL_MEMORY
      (by decide)).2.2.2.1 (by decide)⟩

/-- C5 (as stated, refuted): a full write of level 0xFFF puts the command byte
and the two level bytes 0x0F, 0xFF on the wire; the level transmitted is 0xFFF
itself, neither 0xFFF AND 0xFFC nor 0xFFF AND 0xFF0, and the number of level
bytes is two, not one. -/
theorem full_write_level_not_masked :
    BusEvent.writes
        (((MCP47X6.construct MCP47X6.zeroStorage 0x60 .VDD_UNBUFFERED .X1
          .NOT_POWERED_NORMAL_OPERATION .WRITE_VOLATILE_DAC_REGISTER 0xFFF).init
            TwoWire.idle).sent TwoWire.idle) = [0x00, 0x0F, 0xFF]
    ∧ BusEvent.transmittedLevel (BusEvent.writes
        (((MCP47X6.construct MCP47X6.zeroStorage 0x60 .VDD_UNBUFFERED .X1
          .NOT_POWERED_NORMAL_OPERATION .WRITE_VOLATILE_DAC_REGISTER 0xFFF).init
            TwoWire.idle).sent TwoWire.idle)) ≠ 0xFFF &&& 0xFFC
    ∧ BusEvent.transmittedLevel (BusEvent.writes
        (((MCP47X6.construct MCP47X6.zeroStorage 0x60 .VDD_UNBUFFERED .X1
          .NOT_POWERED_NORMAL_OPERATION .WRITE_VOLATILE_DAC_REGISTER 0xFFF).init
            TwoWire.idle).sent TwoWire.idle)) ≠ 0xFFF &&& 0xFF0
    ∧ ((BusEvent.writes
        (((MCP47X6.construct MCP47X6.zeroStorage 0x60 .VDD_UNBUFFERED .X1
          .NOT_POWERED_NORMAL_OPERATION .WRITE_VOLATILE_DAC_REGISTER 0xFFF).init
            TwoWire.idle).sent TwoWire.idle)).drop 1).length ≠ 1 := by
  decide

/-- C5 (amended): the level put on the wire by a full write is the stored
16-bit output level itself, for every chip variant: the driver applies no mask
and always transmits two level bytes, upper then lower. -/
theorem full_write_level_unmasked (self : MCP47X6) (Wire : TwoWire)
    (m : MCP47X6.MEMORY_WRITE) (h : self.voltage_level_.data < 65536) :
    (BusEvent.transmittedLevel (BusEvent.writes ((self.init Wire).sent Wire))
        = self.voltage_level_.data
      ∧ (BusEvent.writes ((self.init Wire).sent Wire)).drop 1
        = [self.voltage_level_.upper_byte, self.voltage_level_.lower_byte])
    ∧ (BusEvent.transmittedLevel (BusEvent.writes ((self.downloadParameters Wire m).sent Wire))
        = self.voltage_level_.data
      ∧ (BusEvent.writes ((self.downloadParameters Wire m).sent Wire)).drop 1
        = [self.voltage_level_.upper_byte, self.voltage_level_.lower_byte]) := by
  refine ⟨⟨?_, ?_⟩, ?_, ?_⟩
  · rw [MCP47X6.init, MCP47X6.writeCommand_sent]
    simp only [BusEvent.writes, BusEvent.transmittedLevel, List.drop, List.foldl,
      MCP47X6.VoltageLevel.upper_byte, MCP47X6.VoltageLevel.lower_byte]
    omega
  · rw [MCP47X6.init, MCP47X6.writeCommand_sent]
    rfl
  · rw [MCP47X6.downloadParameters, MCP47X6.writeCommand_sent]
    simp only [BusEvent.writes, BusEvent.transmittedLevel, List.drop, List.foldl,
      MCP47X6.VoltageLevel.upper_byte, MCP47X6.VoltageLevel.lower_byte]
    omega
  · rw [MCP47X6.downloadParameters, MCP47X6.writeCommand_sent]
    rfl

/-- C5 (amended), on an object holding level 0xFFF. -/
theorem full_write_level_unmasked_witness :
    (MCP47X6.construct MCP47X6.zeroStorage 0x60 .VDD_UNBUFFERED .X1
        .NOT_POWERED_NORMAL_OPERATION .WRITE_VOLATILE_DAC_REGISTER
        0xFFF).voltage_level_.data < 65536
    ∧ BusEvent.transmittedLevel (BusEvent.writes
        (((MCP47X6.construct MCP47X6.zeroStorage 0x60 .VDD_UNBUFFERED .X1
          .NOT_POWERED_NORMAL_OPERATION .WRITE_VOLATILE_DAC_REGISTER 0xFFF).init
            TwoWire.idle).sent TwoWire.idle))
        = (MCP47X6.construct MCP47X6.zeroStorage 0x60 .VDD_UNBUFFERED .X1
          .NOT_POWERED_NORMAL_OPERATION .WRITE_VOLATILE_DAC_REGISTER
          0xFFF).voltage_level_.data :=
  ⟨by decide,
    (full_write_level_unmasked
      (MCP47X6.construct MCP47X6.zeroStorage 0x60 .VDD_UNBUFFERED .X1
        .NOT_POWERED_NORMAL_OPERATION .WRITE_VOLATILE_DAC_REGISTER 0xFFF)
      TwoWire.idle .WRITE_ALL_MEMORY (by decide)).1.1⟩

/-- C6: when the transport's endTransmission reports a non-zero status,
`downloadParameters(m)` returns false, yet the object afterwards stores
memory target `m` and holds the table bits of `m` in C2, C1, C0, and the three
bytes were handed to the transport. -/
theorem downloadParameters_failure_keeps_update (self : MCP47X6) (Wire : TwoWire)
    (m : MCP47X6.MEMORY_WRITE) (h : Wire.nextStatus ≠ 0) :
    (self.downloadParameters Wire m).ret = false
    ∧ (self.downloadParameters Wire m).self.memory_write_ = m
    ∧ ((self.downloadParameters Wire m).self.command_byte_.C2.toNat = tableC2 m
      ∧ (self.downloadParameters Wire m).self.command_byte_.C1.toNat = tableC1 m
      ∧ (self.downloadParameters Wire m).self.command_byte_.C0.toNat = tableC0 m)
    ∧ BusEvent.writes ((self.downloadParameters Wire m).sent Wire)
      = [(self.downloadParameters Wire m).self.command_byte_.data,
         self.voltage_level_.upper_byte, self.voltage_level_.lower_byte] := by
  refine ⟨?_, ?_, ?_, ?_⟩
  · rw [MCP47X6.downloadParameters, MCP47X6.writeCommand_ret]
    simpa using h
  · cases m <;> rfl
  · cases m <;> exact ⟨rfl, rfl, rfl⟩
  · rw [MCP47X6.downloadParameters, MCP47X6.writeCommand_sent, MCP47X6.writeCommand_self]
    rfl

/-- C6, on zeroed storage, a transport reporting status 2 and
WRITE_ALL_MEMORY. -/
theorem downloadParameters_failure_keeps_update_witness :
    TwoWire.failing.nextStatus ≠ 0
    ∧ (MCP47X6.zeroStorage.downloadParameters TwoWire.failing .WRITE_ALL_MEMORY).ret = false
    ∧ (MCP47X6.zeroStorage.downloadParameters TwoWire.failing
        .WRITE_ALL_MEMORY).self.memory_write_ = .WRITE_ALL_MEMORY :=
  ⟨by decide,
    (downloadParameters_failure_keeps_update MCP47X6.zeroStorage TwoWire.failing
      .WRITE_ALL_MEMORY (by decide)).1,
    (downloadParameters_failure_keeps_update MCP47X6.zeroStorage TwoWire.failing
      .WRITE_ALL_MEMORY (by decide)).2.1⟩

/-! ## Consistency, construction and setters -/

theorem tableEncoding_bits_le (vref : MCP47X6.VREF) (gain : MCP47X6.GAIN)
    (power : MCP47X6.POWER_DOWN) (memory : MCP47X6.MEMORY_WRITE) :
    tableG gain ≤ 1 ∧ tablePD0 power ≤ 1 ∧ tablePD1 power ≤ 1 ∧ tableVREF0 vref ≤ 1
      ∧ tableVREF1 vref ≤ 1 ∧ tableC0 memory ≤ 1 ∧ tableC1 memory ≤ 1
      ∧ tableC2 memory ≤ 1 := by
  cases vref <;> cases gain <;> cases power <;> cases memory <;> decide

theorem MCP47X6.saveGain_data (self : MCP47X6) (gain : MCP47X6.GAIN) :
    (self.saveGain gain).command_byte_.data + self.command_byte_.G.toNat
      = self.command_byte_.data + tableG gain := by
  cases gain <;>
    simp only [MCP47X6.saveGain, MCP47X6.CommandByte.data, tableG, Bool.toNat_true,
      Bool.toNat_false] <;> omega

theorem MCP47X6.saveVref_data (self : MCP47X6) (vref : MCP47X6.VREF) :
    (self.saveVref vref).command_byte_.data + 8 * self.command_byte_.VREF0.toNat
        + 16 * self.command_byte_.VREF1.toNat
      = self.command_byte_.data + 8 * tableVREF0 vref + 16 * tableVREF1 vref := by
  cases vref <;>
    simp only [MCP47X6.saveVref, MCP47X6.CommandByte.data, tableVREF0, tableVREF1,
      Bool.toNat_true, Bool.toNat_false] <;> omega

theorem MCP47X6.savePower_data (self : MCP47X6) (power : MCP47X6.POWER_DOWN) :
    (self.savePower power).command_byte_.data + 2 * self.command_byte_.PD0.toNat
        + 4 * self.command_byte_.PD1.toNat
      = self.command_byte_.data + 2 * tablePD0 power + 4 * tablePD1 power := by
  cases power <;>
    simp only [MCP47X6.savePower, MCP47X6.CommandByte.data, tablePD0, tablePD1,
      Bool.toNat_true, Bool.toNat_false] <;> omega

theorem MCP47X6.saveMemory_data (self : MCP47X6) (memory : MCP47X6.MEMORY_WRITE) :
    (self.saveMemory memory).command_byte_.data + 32 * self.command_byte_.C0.toNat
        + 64 * self.command_byte_.C1.toNat + 128 * self.command_byte_.C2.toNat
      = self.command_byte_.data + 32 * tableC0 memory + 64 * tableC1 memory
        + 128 * tableC2 memory := by
  cases memory <;>
    simp only [MCP47X6.saveMemory, MCP47X6.CommandByte.data, tableC0, tableC1, tableC2,
      Bool.toNat_true, Bool.toNat_false] <;> omega

/-- C7: every public method call (setGain, setVReference, setPower, both
setOutputLevelVolatileFast overloads, init, downloadParameters), with every
argument and on every transport, takes an object whose command byte equals the
table encoding of its four stored settings to an object with the same
property. -/
theorem call_preserves_consistent (self : MCP47X6) (Wire : TwoWire) (c : MCP47X6.Call)
    (h : self.consistent) : (self.call Wire c).self.consistent := by
  rcases self with ⟨a, v, g, p, m, l, ⟨b0, b1, b2, b3, b4, b5, b6, b7⟩⟩
  have hb := tableEncoding_bits_le v g p m
  have h0 := Bool.toNat_le b0
  have h1 := Bool.toNat_le b1
  have h2 := Bool.toNat_le b2
  have h3 := Bool.toNat_le b3
  have h4 := Bool.toNat_le b4
  have h5 := Bool.toNat_le b5
  have h6 := Bool.toNat_le b6
  have h7 := Bool.toNat_le b7
  simp only [MCP47X6.consistent, MCP47X6.CommandByte.data, tableEncoding] at h
  cases c with
  | init =>
    cases m <;>
      simp only [MCP47X6.call, MCP47X6.init, MCP47X6.writeCommand, MCP47X6.saveMemory,
        MCP47X6.consistent, MCP47X6.CommandByte.data, tableEncoding, tableC0, tableC1,
        tableC2, Bool.toNat_true, Bool.toNat_false] at h hb ⊢ <;> omega
  | setGain gain =>
    cases gain <;>
      simp only [MCP47X6.call, MCP47X6.setGain, MCP47X6.saveGain,
        MCP47X6.consistent, MCP47X6.CommandByte.data, tableEncoding, tableG,
        Bool.toNat_true, Bool.toNat_false] at h hb ⊢ <;> omega
  | setVReference vref =>
    cases vref <;>
      simp only [MCP47X6.call, MCP47X6.setVReference, MCP47X6.saveVref,
        MCP47X6.consistent, MCP47X6.CommandByte.data, tableEncoding, tableVREF0, tableVREF1,
        Bool.toNat_true, Bool.toNat_false] at h hb ⊢ <;> omega
  | setPower power_down =>
    cases power_down <;>
      simp only [MCP47X6.call, MCP47X6.setPower, MCP47X6.savePower,
        MCP47X6.consistent, MCP47X6.CommandByte.data, tableEncoding, tablePD0, tablePD1,
        Bool.toNat_true, Bool.toNat_false] at h hb ⊢ <;> omega
  | setOutputLevelVolatileFast16 level =>
    simp only [MCP47X6.call, MCP47X6.consistent, MCP47X6.CommandByte.data, tableEncoding]
    exact h
  | setOutputLevelVolatileFast8 level =>
    simp only [MCP47X6.call, MCP47X6.consistent, MCP47X6.CommandByte.data, tableEncoding]
    exact h
  | downloadParameters memory =>
    cases memory <;>
      simp only [MCP47X6.call, MCP47X6.downloadParameters, MCP47X6.writeCommand,
        MCP47X6.saveMemory, MCP47X6.consistent, MCP47X6.CommandByte.data, tableEncoding,
        tableC0, tableC1, tableC2, Bool.toNat_true, Bool.toNat_false] at h hb ⊢ <;> omega

/-- C7, on a freshly constructed object over zeroed storage and a
`downloadParameters(WRITE_ALL_MEMORY)` whose transaction fails. -/
theorem call_preserves_consistent_witness :
    (MCP47X6.construct MCP47X6.zeroStorage 0x60 .VREF_BUFFERED .X2
        .NOT_POWERED_NORMAL_OPERATION .WRITE_VOLATILE_DAC_REGISTER 2048).consistent
    ∧ ((MCP47X6.construct MCP47X6.zeroStorage 0x60 .VREF_BUFFERED .X2
        .NOT_POWERED_NORMAL_OPERATION .WRITE_VOLATILE_DAC_REGISTER 2048).call
          TwoWire.failing (.downloadParameters .WRITE_ALL_MEMORY)).self.consistent :=
  ⟨by decide, call_preserves_consistent _ _ _ (by decide)⟩

/-- C8 (as stated, refuted): constructed over storage whose command byte held
0xFF, with VDD_UNBUFFERED, X1, normal operation and
WRITE_VOLATILE_DAC_REGISTER, the object's command byte is 0xE0 while the table
encoding of the four settings is 0x00. -/
theorem construct_command_byte_ne_table :
    (MCP47X6.new MCP47X6.onesStorage TwoWire.idle 0x60 .VDD_UNBUFFERED .X1
        .NOT_POWERED_NORMAL_OPERATION .WRITE_VOLATILE_DAC_REGISTER
        2048).self.command_byte_.data = 0xE0
    ∧ tableEncoding .VDD_UNBUFFERED .X1 .NOT_POWERED_NORMAL_OPERATION
        .WRITE_VOLATILE_DAC_REGISTER = 0x00
    ∧ (MCP47X6.new MCP47X6.onesStorage TwoWire.idle 0x60 .VDD_UNBUFFERED .X1
        .NOT_POWERED_NORMAL_OPERATION .WRITE_VOLATILE_DAC_REGISTER
        2048).self.command_byte_.data
      ≠ tableEncoding .VDD_UNBUFFERED .X1 .NOT_POWERED_NORMAL_OPERATION
        .WRITE_VOLATILE_DAC_REGISTER := by
  decide

/-- C8 (amended): immediately after the constructor, whatever the storage held,
bits 0-4 of the command byte (G, PD0, PD1, VREF0, VREF1) are the table
encoding of the gain, power mode and reference supplied, bits 5-7 (C0, C1, C2)
are the ones the storage held, the four settings supplied are stored, the
stored level is the 16-bit level supplied, and the transport has received
nothing. -/
theorem construct_encodes_configuration_bits (storage : MCP47X6) (Wire : TwoWire)
    (address level : Nat) (vref : MCP47X6.VREF) (gain : MCP47X6.GAIN)
    (power : MCP47X6.POWER_DOWN) (memory : MCP47X6.MEMORY_WRITE) (h : level < 65536) :
    (MCP47X6.new storage Wire address vref gain power memory level).self.command_byte_.data
        % 32
      = tableG gain + 2 * tablePD0 power + 4 * tablePD1 power + 8 * tableVREF0 vref
        + 16 * tableVREF1 vref
    ∧ (MCP47X6.new storage Wire address vref gain power memory level).self.command_byte_.data
        / 32
      = storage.command_byte_.data / 32
    ∧ (MCP47X6.new storage Wire address vref gain power memory level).self.vref_ = vref
    ∧ (MCP47X6.new storage Wire address vref gain power memory level).self.gain_ = gain
    ∧ (MCP47X6.new storage Wire address vref gain power memory level).self.power_down_
      = power
    ∧ (MCP47X6.new storage Wire address vref gain power memory level).self.memory_write_
      = memory
    ∧ (MCP47X6.new storage Wire address vref gain power memory level).self.voltage_level_.data
      = level
    ∧ (MCP47X6.new storage Wire address vref gain power memory level).Wire = Wire
    ∧ (MCP47X6.new storage Wire address vref gain power memory level).sent Wire = [] := by
  rcases storage with ⟨a, v, g, p, m, l, ⟨b0, b1, b2, b3, b4, b5, b6, b7⟩⟩
  have h0 := Bool.toNat_le b0
  have h1 := Bool.toNat_le b1
  have h2 := Bool.toNat_le b2
  have h3 := Bool.toNat_le b3
  have h4 := Bool.toNat_le b4
  have h5 := Bool.toNat_le b5
  have h6 := Bool.toNat_le b6
  have h7 := Bool.toNat_le b7
  refine ⟨?_, ?_, ?_, ?_, ?_, ?_, ?_, rfl, ?_⟩
  · cases vref <;> cases gain <;> cases power <;>
      simp only [MCP47X6.new, MCP47X6.construct, MCP47X6.saveGain, MCP47X6.saveVref,
        MCP47X6.savePower, MCP47X6.CommandByte.data, tableG, tablePD0, tablePD1,
        tableVREF0, tableVREF1, Bool.toNat_true, Bool.toNat_false] <;> omega
  · cases vref <;> cases gain <;> cases power <;>
      simp only [MCP47X6.new, MCP47X6.construct, MCP47X6.saveGain, MCP47X6.saveVref,
        MCP47X6.savePower, MCP47X6.CommandByte.data, Bool.toNat_true, Bool.toNat_false] <;>
      omega
  · cases vref <;> cases gain <;> cases power <;> rfl
  · cases vref <;> cases gain <;> cases power <;> rfl
  · cases vref <;> cases gain <;> cases power <;> rfl
  · cases vref <;> cases gain <;> cases power <;> rfl
  · show (MCP47X6.construct _ address vref gain power memory level).voltage_level_.data = level
    rw [MCP47X6.construct_level]
    exact Nat.mod_eq_of_lt h
  · simp [MCP47X6.Result.sent, MCP47X6.new]

/-- C8 (amended), over storage whose command byte held 0xFF, with level 2048:
bits 5-7 stay set, the level is stored. -/
theorem construct_encodes_configuration_bits_witness :
    2048 < 65536
    ∧ (MCP47X6.new MCP47X6.onesStorage TwoWire.idle 0x60 .VREF_BUFFERED .X2
        .NOT_POWERED_NORMAL_OPERATION .WRITE_ALL_MEMORY 2048).self.command_byte_.data / 32
      = MCP47X6.onesStorage.command_byte_.data / 32
    ∧ (MCP47X6.new MCP47X6.onesStorage TwoWire.idle 0x60 .VREF_BUFFERED .X2
        .NOT_POWERED_NORMAL_OPERATION .WRITE_ALL_MEMORY 2048).self.voltage_level_.data
      = 2048 :=
  ⟨by decide,
    (construct_encodes_configuration_bits MCP47X6.onesStorage TwoWire.idle 0x60 2048
      .VREF_BUFFERED .X2 .NOT_POWERED_NORMAL_OPERATION .WRITE_ALL_MEMORY (by decide)).2.1,
    (construct_encodes_configuration_bits MCP47X6.onesStorage TwoWire.idle 0x60 2048
      .VREF_BUFFERED .X2 .NOT_POWERED_NORMAL_OPERATION .WRITE_ALL_MEMORY
      (by decide)).2.2.2.2.2.2.1⟩

/-- C9: each of setGain, setVReference and setPower, on every object and
transport and for every argument, makes no call on the transport and returns
the object changed in its own stored setting and its own command-byte field
only (G; VREF1, VREF0; PD1, PD0), and that field then holds the table bits of
the argument; the other command-byte bits, the other three settings, the
level and the address are as before. -/
theorem setters_change_only_their_field (self : MCP47X6) (Wire : TwoWire)
    (gain : MCP47X6.GAIN) (vref : MCP47X6.VREF) (power : MCP47X6.POWER_DOWN) :
    ((self.call Wire (.setGain gain)).Wire = Wire
      ∧ (self.call Wire (.setGain gain)).sent Wire = []
      ∧ (self.call Wire (.setGain gain)).self
        = { self with
            gain_ := gain
            command_byte_ :=
              { self.command_byte_ with
                G := (self.call Wire (.setGain gain)).self.command_byte_.G } }
      ∧ (self.call Wire (.setGain gain)).self.command_byte_.G.toNat = tableG gain)
    ∧ ((self.call Wire (.setVReference vref)).Wire = Wire
      ∧ (self.call Wire (.setVReference vref)).sent Wire = []
      ∧ (self.call Wire (.setVReference vref)).self
        = { self with
            vref_ := vref
            command_byte_ :=
              { self.command_byte_ with
                VREF1 := (self.call Wire (.setVReference vref)).self.command_byte_.VREF1
                VREF0 := (self.call Wire (.setVReference vref)).self.command_byte_.VREF0 } }
      ∧ (self.call Wire (.setVReference vref)).self.command_byte_.VREF1.toNat
        = tableVREF1 vref
      ∧ (self.call Wire (.setVReference vref)).self.command_byte_.VREF0.toNat
        = tableVREF0 vref)
    ∧ ((self.call Wire (.setPower power)).Wire = Wire
      ∧ (self.call Wire (.setPower power)).sent Wire = []
      ∧ (self.call Wire (.setPower power)).self
        = { self with
            power_down_ := power
            command_byte_ :=
              { self.command_byte_ with
                PD1 := (self.call Wire (.setPower power)).self.command_byte_.PD1
                PD0 := (self.call Wire (.setPower power)).self.command_byte_.PD0 } }
      ∧ (self.call Wire (.setPower power)).self.command_byte_.PD1.toNat = tablePD1 power
      ∧ (self.call Wire (.setPower power)).self.command_byte_.PD0.toNat
        = tablePD0 power) := by
  have hsent : ∀ r : MCP47X6.Result MCP47X6.Value, r.Wire = Wire → r.sent Wire = [] := by
    intro r hr
    simp [MCP47X6.Result.sent, hr]
  refine ⟨⟨rfl, hsent _ rfl, ?_, ?_⟩, ⟨rfl, hsent _ rfl, ?_, ?_, ?_⟩,
    ⟨rfl, hsent _ rfl, ?_, ?_, ?_⟩⟩
  · cases gain <;> rfl
  · cases gain <;> rfl
  · cases vref <;> rfl
  · cases vref <;> rfl
  · cases vref <;> rfl
  · cases power <;> rfl
  · cases power <;> rfl
  · cases power <;> rfl

/-- C10 (the code at the failing input): on an object constructed with level
0, `setOutputLevelVolatileFast(4095)` (16-bit overload) and
`setOutputLevelVolatileFast(255)` (8-bit overload) leave the stored level at 0,
and the `init()` that follows writes the level bytes 0x00, 0x00. -/
theorem setOutputLevelVolatileFast_keeps_stored_level :
    ((MCP47X6.construct MCP47X6.zeroStorage 0x60 .VDD_UNBUFFERED .X1
        .NOT_POWERED_NORMAL_OPERATION .WRITE_VOLATILE_DAC_REGISTER 0).call TwoWire.idle
          (.setOutputLevelVolatileFast16 4095)).self.voltage_level_.data = 0
    ∧ BusEvent.writes
        ((((MCP47X6.construct MCP47X6.zeroStorage 0x60 .VDD_UNBUFFERED .X1
          .NOT_POWERED_NORMAL_OPERATION .WRITE_VOLATILE_DAC_REGISTER 0).call TwoWire.idle
            (.setOutputLevelVolatileFast16 4095)).self.init TwoWire.idle).sent TwoWire.idle)
      = [0x00, 0x00, 0x00]
    ∧ ((MCP47X6.construct MCP47X6.zeroStorage 0x60 .VDD_UNBUFFERED .X1
        .NOT_POWERED_NORMAL_OPERATION .WRITE_VOLATILE_DAC_REGISTER 0).call TwoWire.idle
          (.setOutputLevelVolatileFast8 255)).self.voltage_level_.data = 0
    ∧ BusEvent.writes
        ((((MCP47X6.construct MCP47X6.zeroStorage 0x60 .VDD_UNBUFFERED .X1
          .NOT_POWERED_NORMAL_OPERATION .WRITE_VOLATILE_DAC_REGISTER 0).call TwoWire.idle
            (.setOutputLevelVolatileFast8 255)).self.init TwoWire.idle).sent TwoWire.idle)
      = [0x00, 0x00, 0x00] := by
  decide

/-! ## Algebra of the setters and frames of the remaining methods -/

/-- C11: applying setGain, setVReference or setPower twice with the same value
gives exactly the object that applying it once gives; and a second
`downloadParameters(m)`, on a transport reporting the same status, leaves the
object as the first one left it, returns the same value and writes the same
three bytes. -/
theorem setters_idempotent (self : MCP47X6) (Wire : TwoWire) (events : List BusEvent)
    (rest : List Nat) (gain : MCP47X6.GAIN) (vref : MCP47X6.VREF)
    (power : MCP47X6.POWER_DOWN) (m : MCP47X6.MEMORY_WRITE) :
    (self.setGain gain).setGain gain = self.setGain gain
    ∧ (self.setVReference vref).setVReference vref = self.setVReference vref
    ∧ (self.setPower power).setPower power = self.setPower power
    ∧ ((self.downloadParameters Wire m).self.downloadParameters
          { events := events, pending := Wire.nextStatus :: rest } m).self
        = (self.downloadParameters Wire m).self
    ∧ ((self.downloadParameters Wire m).self.downloadParameters
          { events := events, pending := Wire.nextStatus :: rest } m).ret
        = (self.downloadParameters Wire m).ret
    ∧ BusEvent.writes (((self.downloadParameters Wire m).self.downloadParameters
          { events := events, pending := Wire.nextStatus :: rest } m).sent
            { events := events, pending := Wire.nextStatus :: rest })
        = BusEvent.writes ((self.downloadParameters Wire m).sent Wire) := by
  refine ⟨?_, ?_, ?_, ?_, ?_, ?_⟩
  · cases gain <;> rfl
  · cases vref <;> rfl
  · cases power <;> rfl
  · cases m <;> rfl
  · simp only [MCP47X6.downloadParameters, MCP47X6.writeCommand_ret]
    rfl
  · simp only [MCP47X6.downloadParameters, MCP47X6.writeCommand_sent,
      MCP47X6.writeCommand_self]
    cases m <;> rfl

/-- C14: on every object and transport, `init()` and
`downloadParameters(stored memory target)` leave the same object and the same
transport, make the same calls on the transport and return the same value;
and `init()` leaves the four stored settings and the output level as they
were. -/
theorem init_eq_downloadParameters_of_stored_target (self : MCP47X6) (Wire : TwoWire) :
    ((self.init Wire).self = (self.downloadParameters Wire self.memory_write_).self
      ∧ (self.init Wire).Wire = (self.downloadParameters Wire self.memory_write_).Wire
      ∧ (self.init Wire).sent Wire
        = (self.downloadParameters Wire self.memory_write_).sent Wire
      ∧ (self.init Wire).ret = (self.downloadParameters Wire self.memory_write_).ret)
    ∧ ((self.init Wire).self.vref_ = self.vref_
      ∧ (self.init Wire).self.gain_ = self.gain_
      ∧ (self.init Wire).self.power_down_ = self.power_down_
      ∧ (self.init Wire).self.memory_write_ = self.memory_write_
      ∧ (self.init Wire).self.voltage_level_ = self.voltage_level_) := by
  rcases self with ⟨a, v, g, p, m, l, cb⟩
  refine ⟨⟨rfl, rfl, rfl, rfl⟩, ?_⟩
  cases m <;> exact ⟨rfl, rfl, rfl, rfl, rfl⟩

/-- C15: both overloads of setOutputLevelVolatileFast, on every object and
transport and for every argument, make no call on the transport and leave the
object as it was; the 16-bit overload returns the low byte of the stored
level and the 8-bit overload the command byte, whatever the argument. -/
theorem setOutputLevelVolatileFast_is_observation (self : MCP47X6) (Wire : TwoWire)
    (level other : Nat) :
    ((self.call Wire (.setOutputLevelVolatileFast16 level)).self = self
      ∧ (self.call Wire (.setOutputLevelVolatileFast16 level)).Wire = Wire
      ∧ (self.call Wire (.setOutputLevelVolatileFast16 level)).sent Wire = []
      ∧ (self.call Wire (.setOutputLevelVolatileFast16 level)).ret
        = .uint8 (self.voltage_level_.data % 256)
      ∧ (self.call Wire (.setOutputLevelVolatileFast16 other)).ret
        = (self.call Wire (.setOutputLevelVolatileFast16 level)).ret)
    ∧ ((self.call Wire (.setOutputLevelVolatileFast8 level)).self = self
      ∧ (self.call Wire (.setOutputLevelVolatileFast8 level)).Wire = Wire
      ∧ (self.call Wire (.setOutputLevelVolatileFast8 level)).sent Wire = []
      ∧ (self.call Wire (.setOutputLevelVolatileFast8 level)).ret
        = .uint8 self.command_byte_.data
      ∧ (self.call Wire (.setOutputLevelVolatileFast8 other)).ret
        = (self.call Wire (.setOutputLevelVolatileFast8 level)).ret) := by
  have hsent : ∀ r : MCP47X6.Result MCP47X6.Value, r.Wire = Wire → r.sent Wire = [] := by
    intro r hr
    simp [MCP47X6.Result.sent, hr]
  exact ⟨⟨rfl, rfl, hsent _ rfl, rfl, rfl⟩, ⟨rfl, rfl, hsent _ rfl, rfl, rfl⟩⟩

/-- C16: on every object and transport and for every memory target m,
`downloadParameters(m)` returns the object changed in its stored memory target
and in the command-byte bits C0, C1, C2 only: bits 0-4 of the command byte,
the stored reference, gain and power settings, the level and the address are
as before, and a repeated `downloadParameters(m)` writes the same three
bytes. -/
theorem downloadParameters_changes_only_memory_target (self : MCP47X6) (Wire Wire2 : TwoWire)
    (m : MCP47X6.MEMORY_WRITE) :
    (self.downloadParameters Wire m).self
        = { self with
            memory_write_ := m
            command_byte_ :=
              { self.command_byte_ with
                C0 := (self.downloadParameters Wire m).self.command_byte_.C0
                C1 := (self.downloadParameters Wire m).self.command_byte_.C1
                C2 := (self.downloadParameters Wire m).self.command_byte_.C2 } }
    ∧ (self.downloadParameters Wire m).self.command_byte_.data % 32
        = self.command_byte_.data % 32
    ∧ ((self.downloadParameters Wire m).self.vref_ = self.vref_
      ∧ (self.downloadParameters Wire m).self.gain_ = self.gain_
      ∧ (self.downloadParameters Wire m).self.power_down_ = self.power_down_
      ∧ (self.downloadParameters Wire m).self.voltage_level_ = self.voltage_level_
      ∧ (self.downloadParameters Wire m).self.address_ = self.address_)
    ∧ BusEvent.writes
        (((self.downloadParameters Wire m).self.downloadParameters Wire2 m).sent Wire2)
      = BusEvent.writes ((self.downloadParameters Wire m).sent Wire) := by
  refine ⟨?_, ?_, ?_, ?_⟩
  · cases m <;> rfl
  · rcases self with ⟨a, v, g, p, mw, l, ⟨b0, b1, b2, b3, b4, b5, b6, b7⟩⟩
    have h0 := Bool.toNat_le b0
    have h1 := Bool.toNat_le b1
    have h2 := Bool.toNat_le b2
    have h3 := Bool.toNat_le b3
    have h4 := Bool.toNat_le b4
    have h5 := Bool.toNat_le b5
    have h6 := Bool.toNat_le b6
    have h7 := Bool.toNat_le b7
    cases m <;>
      simp only [MCP47X6.downloadParameters, MCP47X6.writeCommand, MCP47X6.saveMemory,
        MCP47X6.CommandByte.data, Bool.toNat_true, Bool.toNat_false] <;> omega
  · cases m <;> exact ⟨rfl, rfl, rfl, rfl, rfl⟩
  · simp only [MCP47X6.downloadParameters, MCP47X6.writeCommand_sent,
      MCP47X6.writeCommand_self]
    cases m <;> rfl

theorem MCP47X6.call_gain_bit (self : MCP47X6) (Wire : TwoWire) (c : MCP47X6.Call) :
    (self.call Wire c).self.command_byte_.G.toNat
      = (c.gainArgument.map tableG).getD self.command_byte_.G.toNat := by
  rcases self with ⟨a, v, g, p, m, l, cb⟩
  cases c with
  | init => cases m <;> rfl
  | setGain gain => cases gain <;> rfl
  | setVReference vref => cases vref <;> rfl
  | setPower power_down => cases power_down <;> rfl
  | setOutputLevelVolatileFast16 level => rfl
  | setOutputLevelVolatileFast8 level => rfl
  | downloadParameters memory => cases memory <;> rfl

theorem MCP47X6.call_vref_bits (self : MCP47X6) (Wire : TwoWire) (c : MCP47X6.Call) :
    (self.call Wire c).self.command_byte_.VREF1.toNat
        = (c.vrefArgument.map tableVREF1).getD self.command_byte_.VREF1.toNat
    ∧ (self.call Wire c).self.command_byte_.VREF0.toNat
        = (c.vrefArgument.map tableVREF0).getD self.command_byte_.VREF0.toNat := by
  rcases self with ⟨a, v, g, p, m, l, cb⟩
  cases c with
  | init => cases m <;> exact ⟨rfl, rfl⟩
  | setGain gain => cases gain <;> exact ⟨rfl, rfl⟩
  | setVReference vref => cases vref <;> exact ⟨rfl, rfl⟩
  | setPower power_down => cases power_down <;> exact ⟨rfl, rfl⟩
  | setOutputLevelVolatileFast16 level => exact ⟨rfl, rfl⟩
  | setOutputLevelVolatileFast8 level => exact ⟨rfl, rfl⟩
  | downloadParameters memory => cases memory <;> exact ⟨rfl, rfl⟩

theorem MCP47X6.call_power_bits (self : MCP47X6) (Wire : TwoWire) (c : MCP47X6.Call) :
    (self.call Wire c).self.command_byte_.PD1.toNat
        = (c.powerArgument.map tablePD1).getD self.command_byte_.PD1.toNat
    ∧ (self.call Wire c).self.command_byte_.PD0.toNat
        = (c.powerArgument.map tablePD0).getD self.command_byte_.PD0.toNat := by
  rcases self with ⟨a, v, g, p, m, l, cb⟩
  cases c with
  | init => cases m <;> exact ⟨rfl, rfl⟩
  | setGain gain => cases gain <;> exact ⟨rfl, rfl⟩
  | setVReference vref => cases vref <;> exact ⟨rfl, rfl⟩
  | setPower power_down => cases power_down <;> exact ⟨rfl, rfl⟩
  | setOutputLevelVolatileFast16 level => exact ⟨rfl, rfl⟩
  | setOutputLevelVolatileFast8 level => exact ⟨rfl, rfl⟩
  | downloadParameters memory => cases memory <;> exact ⟨rfl, rfl⟩

theorem MCP47X6.run_gain_bit (cs : List MCP47X6.Call) :
    ∀ (self : MCP47X6) (Wire : TwoWire),
      (self.run Wire cs).self.command_byte_.G.toNat
        = ((MCP47X6.Call.lastGain cs).map tableG).getD self.command_byte_.G.toNat := by
  induction cs with
  | nil => intro self Wire; rfl
  | cons c cs ih =>
    intro self Wire
    rw [MCP47X6.run, ih, MCP47X6.Call.lastGain]
    cases h : MCP47X6.Call.lastGain cs with
    | none => simpa using MCP47X6.call_gain_bit self Wire c
    | some gain => rfl

theorem MCP47X6.run_vref_bits (cs : List MCP47X6.Call) :
    ∀ (self : MCP47X6) (Wire : TwoWire),
      (self.run Wire cs).self.command_byte_.VREF1.toNat
          = ((MCP47X6.Call.lastVref cs).map tableVREF1).getD self.command_byte_.VREF1.toNat
      ∧ (self.run Wire cs).self.command_byte_.VREF0.toNat
          = ((MCP47X6.Call.lastVref cs).map tableVREF0).getD
              self.command_byte_.VREF0.toNat := by
  induction cs with
  | nil => intro self Wire; exact ⟨rfl, rfl⟩
  | cons c cs ih =>
    intro self Wire
    rw [MCP47X6.run, (ih _ _).1, (ih _ _).2, MCP47X6.Call.lastVref]
    cases h : MCP47X6.Call.lastVref cs with
    | none => simpa using MCP47X6.call_vref_bits self Wire c
    | some vref => exact ⟨rfl, rfl⟩

theorem MCP47X6.run_power_bits (cs : List MCP47X6.Call) :
    ∀ (self : MCP47X6) (Wire : TwoWire),
      (self.run Wire cs).self.command_byte_.PD1.toNat
          = ((MCP47X6.Call.lastPower cs).map tablePD1).getD self.command_byte_.PD1.toNat
      ∧ (self.run Wire cs).self.command_byte_.PD0.toNat
          = ((MCP47X6.Call.lastPower cs).map tablePD0).getD
              self.command_byte_.PD0.toNat := by
  induction cs with
  | nil => intro self Wire; exact ⟨rfl, rfl⟩
  | cons c cs ih =>
    intro self Wire
    rw [MCP47X6.run, (ih _ _).1, (ih _ _).2, MCP47X6.Call.lastPower]
    cases h : MCP47X6.Call.lastPower cs with
    | none => simpa using MCP47X6.call_power_bits self Wire c
    | some power => exact ⟨rfl, rfl⟩

/-- C12: after every finite sequence of calls on every starting object (in
particular every sequence of setGain / setVReference / setPower calls), the
command-byte fields G, (VREF1, VREF0) and (PD1, PD0) hold the table bits of
the last value passed to setGain, setVReference and setPower respectively, or
the starting bits when that setter was not called; setters of different
fields commute, and on the same field the last call wins. -/
theorem setter_sequence_last_value_wins (self : MCP47X6) (Wire : TwoWire)
    (cs : List MCP47X6.Call) (gain gain2 : MCP47X6.GAIN) (vref vref2 : MCP47X6.VREF)
    (power power2 : MCP47X6.POWER_DOWN) :
    ((self.run Wire cs).self.command_byte_.G.toNat
        = ((MCP47X6.Call.lastGain cs).map tableG).getD self.command_byte_.G.toNat
      ∧ (self.run Wire cs).self.command_byte_.VREF1.toNat
        = ((MCP47X6.Call.lastVref cs).map tableVREF1).getD self.command_byte_.VREF1.toNat
      ∧ (self.run Wire cs).self.command_byte_.VREF0.toNat
        = ((MCP47X6.Call.lastVref cs).map tableVREF0).getD self.command_byte_.VREF0.toNat
      ∧ (self.run Wire cs).self.command_byte_.PD1.toNat
        = ((MCP47X6.Call.lastPower cs).map tablePD1).getD self.command_byte_.PD1.toNat
      ∧ (self.run Wire cs).self.command_byte_.PD0.toNat
        = ((MCP47X6.Call.lastPower cs).map tablePD0).getD self.command_byte_.PD0.toNat)
    ∧ ((self.setGain gain).setVReference vref = (self.setVReference vref).setGain gain
      ∧ (self.setGain gain).setPower power = (self.setPower power).setGain gain
      ∧ (self.setVReference vref).setPower power
        = (self.setPower power).setVReference vref)
    ∧ ((self.setGain gain).setGain gain2 = self.setGain gain2
      ∧ (self.setVReference vref).setVReference vref2 = self.setVReference vref2
      ∧ (self.setPower power).setPower power2 = self.setPower power2) := by
  refine ⟨⟨MCP47X6.run_gain_bit cs self Wire, (MCP47X6.run_vref_bits cs self Wire).1,
    (MCP47X6.run_vref_bits cs self Wire).2, (MCP47X6.run_power_bits cs self Wire).1,
    (MCP47X6.run_power_bits cs self Wire).2⟩, ⟨?_, ?_, ?_⟩, ⟨?_, ?_, ?_⟩⟩
  · cases gain <;> cases vref <;> rfl
  · cases gain <;> cases power <;> rfl
  · cases vref <;> cases power <;> rfl
  · cases gain <;> cases gain2 <;> rfl
  · cases vref <;> cases vref2 <;> rfl
  · cases power <;> cases power2 <;> rfl

theorem MCP47X6.call_address (self : MCP47X6) (Wire : TwoWire) (c : MCP47X6.Call) :
    (self.call Wire c).self.address_ = self.address_ := by
  rcases self with ⟨a, v, g, p, m, l, cb⟩
  cases c with
  | init => cases m <;> rfl
  | setGain gain => cases gain <;> rfl
  | setVReference vref => cases vref <;> rfl
  | setPower power_down => cases power_down <;> rfl
  | setOutputLevelVolatileFast16 level => rfl
  | setOutputLevelVolatileFast8 level => rfl
  | downloadParameters memory => cases memory <;> rfl

theorem MCP47X6.writeCommand_events (self : MCP47X6) (Wire : TwoWire)
    (memory : MCP47X6.MEMORY_WRITE) :
    (self.writeCommand Wire memory).Wire.events
      = Wire.events ++ [BusEvent.beginTransmission self.address_,
         BusEvent.write (self.saveMemory memory).command_byte_.data,
         BusEvent.write self.voltage_level_.upper_byte,
         BusEvent.write self.voltage_level_.lower_byte,
         BusEvent.endTransmission] := by
  cases memory <;>
    simp [MCP47X6.writeCommand, MCP47X6.saveMemory,
      TwoWire.beginTransmission, TwoWire.write, TwoWire.endTransmission]

theorem MCP47X6.call_events (self : MCP47X6) (Wire : TwoWire) (c : MCP47X6.Call) :
    ∃ l : List BusEvent, (self.call Wire c).Wire.events = Wire.events ++ l
      ∧ ∀ a, BusEvent.beginTransmission a ∈ l → a = self.address_ := by
  cases c with
  | init =>
    refine ⟨_, MCP47X6.writeCommand_events self Wire self.memory_write_, ?_⟩
    intro a ha
    simpa using ha
  | setGain gain => exact ⟨[], by simp [MCP47X6.call], by simp⟩
  | setVReference vref => exact ⟨[], by simp [MCP47X6.call], by simp⟩
  | setPower power_down => exact ⟨[], by simp [MCP47X6.call], by simp⟩
  | setOutputLevelVolatileFast16 level => exact ⟨[], by simp [MCP47X6.call], by simp⟩
  | setOutputLevelVolatileFast8 level => exact ⟨[], by simp [MCP47X6.call], by simp⟩
  | downloadParameters memory =>
    refine ⟨_, MCP47X6.writeCommand_events { self with memory_write_ := memory } Wire memory, ?_⟩
    intro a ha
    simpa using ha

theorem MCP47X6.run_events (cs : List MCP47X6.Call) :
    ∀ (self : MCP47X6) (Wire : TwoWire),
      (self.run Wire cs).self.address_ = self.address_
      ∧ ∃ l : List BusEvent, (self.run Wire cs).Wire.events = Wire.events ++ l
        ∧ ∀ a, BusEvent.beginTransmission a ∈ l → a = self.address_ := by
  induction cs with
  | nil =>
    intro self Wire
    exact ⟨rfl, [], by simp [MCP47X6.run], by simp⟩
  | cons c cs ih =>
    intro self Wire
    obtain ⟨hadr, l2, hl2, hb2⟩ := ih (self.call Wire c).self (self.call Wire c).Wire
    obtain ⟨l1, hl1, hb1⟩ := MCP47X6.call_events self Wire c
    rw [MCP47X6.call_address] at hadr hb2
    refine ⟨hadr, l1 ++ l2, ?_, ?_⟩
    · rw [MCP47X6.run, hl2, hl1, List.append_assoc]
    · intro a ha
      rcases List.mem_append.mp ha with h | h
      · exact hb1 a h
      · exact hb2 a h

/-- C13: no public method call changes the stored address; after the
constructor with an 8-bit address and any finite sequence of calls the stored
address is the one given to the constructor, and every beginTransmission the
transport received during the sequence carries exactly that address. -/
theorem address_fixed_at_construction (storage : MCP47X6) (Wire : TwoWire)
    (address level : Nat) (vref : MCP47X6.VREF) (gain : MCP47X6.GAIN)
    (power : MCP47X6.POWER_DOWN) (memory : MCP47X6.MEMORY_WRITE)
    (cs : List MCP47X6.Call) (h : address < 256) :
    (∀ (self : MCP47X6) (w : TwoWire) (c : MCP47X6.Call),
        (self.call w c).self.address_ = self.address_)
    ∧ ((MCP47X6.construct storage address vref gain power memory level).run
        Wire cs).self.address_ = address
    ∧ ∀ a, BusEvent.beginTransmission a
          ∈ ((MCP47X6.construct storage address vref gain power memory level).run
              Wire cs).sent Wire
        → a = address := by
  have hc : (MCP47X6.construct storage address vref gain power memory level).address_
      = address := by
    rw [MCP47X6.construct_address]
    exact Nat.mod_eq_of_lt h
  obtain ⟨hadr, l, hl, hb⟩ :=
    MCP47X6.run_events cs (MCP47X6.construct storage address vref gain power memory level) Wire
  refine ⟨MCP47X6.call_address, hadr.trans hc, ?_⟩
  intro a ha
  rw [MCP47X6.Result.sent, hl, List.drop_left] at ha
  exact (hb a ha).trans hc

/-- C13, on an object constructed at address 0x60 over zeroed storage, then
setGain(X2), init() and a failing downloadParameters(WRITE_ALL_MEMORY): two
transactions were begun, both to 0x60. -/
theorem address_fixed_at_construction_witness :
    0x60 < 256
    ∧ BusEvent.beginTransmission 0x60
        ∈ ((MCP47X6.construct MCP47X6.zeroStorage 0x60 .VDD_UNBUFFERED .X1
            .NOT_POWERED_NORMAL_OPERATION .WRITE_VOLATILE_DAC_REGISTER 2048).run
              TwoWire.failing
              [.setGain .X2, .init, .downloadParameters .WRITE_ALL_MEMORY]).sent
            TwoWire.failing
    ∧ ((MCP47X6.construct MCP47X6.zeroStorage 0x60 .VDD_UNBUFFERED .X1
          .NOT_POWERED_NORMAL_OPERATION .WRITE_VOLATILE_DAC_REGISTER 2048).run
            TwoWire.failing
            [.setGain .X2, .init, .downloadParameters .WRITE_ALL_MEMORY]).self.address_
        = 0x60 :=
  ⟨by decide, by decide,
    (address_fixed_at_construction MCP47X6.zeroStorage TwoWire.failing 0x60 2048
      .VDD_UNBUFFERED .X1 .NOT_POWERED_NORMAL_OPERATION .WRITE_VOLATILE_DAC_REGISTER
      [.setGain .X2, .init, .downloadParameters .WRITE_ALL_MEMORY] (by decide)).2.1⟩

theorem MCP47X6.encode_eq_tableEncoding (storage : MCP47X6) (c : MCP47X6.Configuration) :
    MCP47X6.encode storage c = tableEncoding c.vref c.gain c.power c.memory := by
  rw [MCP47X6.encode, MCP47X6.init, MCP47X6.writeCommand_self,
    MCP47X6.construct_memory_write, MCP47X6.saveMemory_construct_data]

theorem MCP47X6.decode_tableEncoding (c : MCP47X6.Configuration) :
    MCP47X6.decode (tableEncoding c.vref c.gain c.power c.memory) = some c := by
  rcases c with ⟨vref, gain, power, memory⟩
  cases vref <;> cases gain <;> cases power <;> cases memory <;> rfl

/-- C17: the command-byte encoding is injective on configurations (reference,
gain, power, memory target): the 96 configurations produce 96 pairwise
different command bytes, whatever the storage held, and `decode` recovers
every configuration from its command byte. -/
theorem encode_injective_with_decoder (storage : MCP47X6) :
    Function.Injective (MCP47X6.encode storage)
    ∧ (∀ c : MCP47X6.Configuration, MCP47X6.decode (MCP47X6.encode storage c) = some c)
    ∧ (∀ c : MCP47X6.Configuration, c ∈ MCP47X6.allConfigurations)
    ∧ MCP47X6.allConfigurations.length = 96
    ∧ (MCP47X6.allConfigurations.map (MCP47X6.encode storage)).Nodup := by
  have hdec : ∀ c : MCP47X6.Configuration,
      MCP47X6.decode (MCP47X6.encode storage c) = some c := by
    intro c
    rw [MCP47X6.encode_eq_tableEncoding, MCP47X6.decode_tableEncoding]
  have hinj : Function.Injective (MCP47X6.encode storage) := by
    intro c d hcd
    have hc := hdec c
    rw [hcd, hdec d] at hc
    exact (Option.some.inj hc).symm
  refine ⟨hinj, hdec, ?_, by decide, ?_⟩
  · intro c
    rcases c with ⟨vref, gain, power, memory⟩
    cases vref <;> cases gain <;> cases power <;> cases memory <;> decide
  · exact (List.nodup_map_iff hinj).mpr (by decide)
